import Mathlib

/-!
Shallow embedding of the GTLaundry user role-management protocol.

Sources embedded here:
- `supabase/users-schema-ultra-safe.sql`: stored procedures
  `promote_user_to_admin`, `demote_admin_to_user`, `get_all_users`
  over the tables `public.users` (the Directory) and `public.admin_users`
  (the Role Registry).
- the legacy schema variant (`promote_user_to_admin` with the narrower
  allowed-role set `{user, admin}`).
- the HTTP route handlers `api/admin/users/promote` and
  `api/admin/users/demote` (thin forwarders).
- the admin page client logic: `searchUsers`, `handleSearch`,
  `handlePromote`.

Identifiers (uuids) are modelled as `String`; timestamps as `Nat`
(`created_at` ordering is all that matters to the embedded claims; the
audit timestamps `created_at`/`updated_at` on registry rows, which no
claim mentions, are omitted).  A raised plpgsql exception aborts the
statement, so each mutating operation returns `Except DbError DB`: on
error no state transition occurs.
-/

namespace GTL

/-- A row of `public.users` (the Directory). -/
structure User where
  id : String
  email : String
  full_name : Option String := none
  avatar_url : Option String := none
  phone : Option String := none
  created_at : Nat := 0
  last_sign_in_at : Option Nat := none
  is_active : Bool := true
deriving Repr, DecidableEq

/-- A row of `public.admin_users` (the Role Registry): `role` is a free-form
`text` column in the schema sources, so it is a `String` here. -/
structure AdminRow where
  id : String
  role : String
  created_by : String
deriving Repr, DecidableEq

/-- The durable state: the Directory and the Role Registry. -/
structure DB where
  users : List User
  admin_users : List AdminRow
deriving Repr, DecidableEq

/-- Embeds `exists (select 1 from admin_users where id = uid and role = 'super_admin')`. -/
def isSuperAdmin (db : DB) (uid : String) : Bool :=
  db.admin_users.any (fun r => r.id == uid && r.role == "super_admin")

/-- Embeds `exists (select 1 from admin_users where id = uid and role in ('admin','super_admin'))`. -/
def isAdminOrSuperAdmin (db : DB) (uid : String) : Bool :=
  db.admin_users.any (fun r => r.id == uid && (r.role == "admin" || r.role == "super_admin"))

/-- Embeds `exists (select 1 from users where id = uid)`. -/
def userExists (db : DB) (uid : String) : Bool :=
  db.users.any (fun u => u.id == uid)

/-- The Role Registry row of a user, if any (`admin_users.id` is the primary key). -/
def lookupRole (db : DB) (uid : String) : Option AdminRow :=
  db.admin_users.find? (fun r => r.id == uid)

/-- Errors raised by the stored procedures and the direct-insert path. -/
inductive DbError where
  | notSuperAdminPromote
  | userDoesNotExist
  | untouchable
  | invalidRole
  | invalidRoleLegacy
  | notSuperAdminDemote
  | notAdminList
  | duplicateKey
deriving Repr, DecidableEq

/-- The exception message text raised for each error in the SQL sources
(`duplicateKey` is the storage engine's unique-violation message). -/
def errMessage : DbError → String
  | .notSuperAdminPromote => "Only super_admins can promote users to admin"
  | .userDoesNotExist => "User does not exist"
  | .untouchable => "Cannot modify super_admin role - super_admins are untouchable"
  | .invalidRole => "Invalid role. Must be user, admin, or super_admin"
  | .invalidRoleLegacy => "Invalid role. Must be user or admin"
  | .notSuperAdminDemote => "Only super_admins can demote users"
  | .notAdminList => "Only admins can view all users"
  | .duplicateKey => "duplicate key value violates unique constraint"

/-- The error taxonomy of the specification. -/
inductive ErrClass where
  | unauthorized
  | notFound
  | forbidden
  | invalidArgument
  | conflict
deriving Repr, DecidableEq

/-- Which taxonomy class each concrete error belongs to. -/
def classOf : DbError → ErrClass
  | .notSuperAdminPromote => .unauthorized
  | .userDoesNotExist => .notFound
  | .untouchable => .forbidden
  | .invalidRole => .invalidArgument
  | .invalidRoleLegacy => .invalidArgument
  | .notSuperAdminDemote => .unauthorized
  | .notAdminList => .unauthorized
  | .duplicateKey => .conflict

/-- Embeds `insert into admin_users (id, role, created_by) values (target, role, caller)
on conflict (id) do update set role = excluded.role, created_by = auth.uid()`:
if a row keyed by `target` exists it is updated in place, otherwise a new
row is appended. -/
def upsertList (l : List AdminRow) (target role caller : String) : List AdminRow :=
  if l.any (fun r => r.id == target) then
    l.map (fun r => if r.id == target then { r with role := role, created_by := caller } else r)
  else
    l ++ [{ id := target, role := role, created_by := caller }]

/-- Embeds `public.promote_user_to_admin(target_user_id, new_role)` from
`users-schema-ultra-safe.sql` with `auth.uid() = caller`: authorization
check, target-existence check, untouchable check, role validation
(allowed set `{user, admin, super_admin}`), then the upsert. -/
def promote_user_to_admin (caller target new_role : String) (db : DB) : Except DbError DB :=
  if !(isSuperAdmin db caller) then .error .notSuperAdminPromote
  else if !(userExists db target) then .error .userDoesNotExist
  else if isSuperAdmin db target then .error .untouchable
  else if !(new_role == "user" || new_role == "admin" || new_role == "super_admin") then
    .error .invalidRole
  else .ok { db with admin_users := upsertList db.admin_users target new_role caller }

/-- Embeds the legacy schema variant of `promote_user_to_admin`, identical
except that the allowed-role set is `{user, admin}`. -/
def promote_user_to_admin_legacy (caller target new_role : String) (db : DB) : Except DbError DB :=
  if !(isSuperAdmin db caller) then .error .notSuperAdminPromote
  else if !(userExists db target) then .error .userDoesNotExist
  else if isSuperAdmin db target then .error .untouchable
  else if !(new_role == "user" || new_role == "admin") then .error .invalidRoleLegacy
  else .ok { db with admin_users := upsertList db.admin_users target new_role caller }

/-- Embeds `public.demote_admin_to_user(target_user_id)` with
`auth.uid() = caller`: authorization check, untouchable check, then
`delete from admin_users where id = target` (no target-existence check). -/
def demote_admin_to_user (caller target : String) (db : DB) : Except DbError DB :=
  if !(isSuperAdmin db caller) then .error .notSuperAdminDemote
  else if isSuperAdmin db target then .error .untouchable
  else .ok { db with admin_users := db.admin_users.filter (fun r => r.id != target) }

/-- The state after a promote call: a raised exception aborts the
transaction, so an error leaves the state unchanged. -/
def applyPromote (caller target new_role : String) (db : DB) : DB :=
  match promote_user_to_admin caller target new_role db with
  | .ok db2 => db2
  | .error _ => db

/-- The state after a demote call; an error leaves the state unchanged. -/
def applyDemote (caller target : String) (db : DB) : DB :=
  match demote_admin_to_user caller target db with
  | .ok db2 => db2
  | .error _ => db

/-- A row of the `get_all_users` result set. -/
structure UserRow where
  id : String
  email : String
  full_name : Option String
  avatar_url : Option String
  phone : Option String
  created_at : Nat
  last_sign_in_at : Option Nat
  is_active : Bool
  admin_role : String
  is_admin : Bool
deriving Repr, DecidableEq

/-- One row of the left join `users u left join admin_users au on u.id = au.id`
with `coalesce(au.role, 'user') as admin_role` and `(au.id is not null) as is_admin`. -/
def toUserRow (db : DB) (u : User) : UserRow :=
  { id := u.id
    email := u.email
    full_name := u.full_name
    avatar_url := u.avatar_url
    phone := u.phone
    created_at := u.created_at
    last_sign_in_at := u.last_sign_in_at
    is_active := u.is_active
    admin_role := ((lookupRole db u.id).map AdminRow.role).getD "user"
    is_admin := (lookupRole db u.id).isSome }

/-- The ordering relation of `order by u.created_at desc`. -/
def byCreatedDesc (a b : User) : Prop := b.created_at ≤ a.created_at

instance : DecidableRel byCreatedDesc := fun a b => Nat.decLe b.created_at a.created_at

instance : IsTotal User byCreatedDesc :=
  ⟨fun a b => (Nat.le_total b.created_at a.created_at).imp id id⟩

instance : IsTrans User byCreatedDesc :=
  ⟨fun _ _ _ hab hbc => Nat.le_trans hbc hab⟩

/-- The full result set of `get_all_users` before the authorization check:
every Directory row, ordered by `created_at` descending, annotated via the
left join. -/
def allUsersRows (db : DB) : List UserRow :=
  (db.users.insertionSort byCreatedDesc).map (toUserRow db)

/-- Embeds `public.get_all_users()` with `auth.uid() = caller`: authorization
check (admin or super_admin), then the annotated, ordered left join. -/
def get_all_users (caller : String) (db : DB) : Except DbError (List UserRow) :=
  if !(isAdminOrSuperAdmin db caller) then .error .notAdminList
  else .ok (allUsersRows db)

/-! HTTP route handlers (`api/admin/users/promote` and `api/admin/users/demote`).
A JSON body field is `Option String`; JavaScript falsiness (`!userId`) holds
for an absent field and for the empty string. -/

/-- The request body of the promote endpoint. -/
structure PromoteBody where
  userId : Option String
  role : Option String
deriving Repr, DecidableEq

/-- JavaScript falsiness of an optional string field (`!userId`). -/
def isBlank : Option String → Bool
  | none => true
  | some s => s == ""

/-- An HTTP response as far as the routes shape one: status code, whether the
body is the `{success: true, message}` shape, and the `error`/`message` texts. -/
structure HttpResponse where
  status : Nat
  success : Bool
  error : Option String
  message : Option String
deriving Repr, DecidableEq

/-- Embeds the `POST api/admin/users/promote` handler: reject blank
`userId`/`role` with 400, reject a role outside
`{user, admin, super_admin}` with 400, otherwise forward to
`promote_user_to_admin` and map its error to 400 with the error message,
or success to 200 with `{success: true, message}`. -/
def promoteRoute (caller : String) (body : PromoteBody) (db : DB) : HttpResponse × DB :=
  if isBlank body.userId || isBlank body.role then
    ({ status := 400, success := false, error := some "Missing userId or role", message := none }, db)
  else
    let userId := body.userId.getD ""
    let role := body.role.getD ""
    if !(role == "user" || role == "admin" || role == "super_admin") then
      ({ status := 400, success := false,
         error := some "Invalid role. Must be user, admin, or super_admin", message := none }, db)
    else
      match promote_user_to_admin caller userId role db with
      | .error e =>
          ({ status := 400, success := false, error := some (errMessage e), message := none }, db)
      | .ok db2 =>
          ({ status := 200, success := true, error := none,
             message := some ("User successfully promoted to " ++ role) }, db2)

/-- Embeds the `POST api/admin/users/demote` handler: reject a blank `userId`
with 400, otherwise forward to `demote_admin_to_user` and map its error to
400 with the error message, or success to 200 with `{success: true, message}`. -/
def demoteRoute (caller : String) (userId : Option String) (db : DB) : HttpResponse × DB :=
  if isBlank userId then
    ({ status := 400, success := false, error := some "Missing userId", message := none }, db)
  else
    match demote_admin_to_user caller (userId.getD "") db with
    | .error e =>
        ({ status := 400, success := false, error := some (errMessage e), message := none }, db)
    | .ok db2 =>
        ({ status := 200, success := true, error := none,
           message := some "User successfully demoted to regular user" }, db2)

/-! Admin page client logic (`app/admin/users/page.tsx`). -/

/-- Whether `query` occurs as a substring of `email`, case-insensitively. -/
def emailMatches (email query : String) : Bool :=
  (email.toList.map Char.toLower).tails.any
    (fun t => (query.toList.map Char.toLower).isPrefixOf t)

/-- Modelled from the spec: the `api/admin/users/search` route handler is not
among the repository sources; per the spec it returns the Users whose email
matches the query by a case-insensitive substring match. -/
def searchEndpoint (db : DB) (query : String) : List User :=
  db.users.filter (fun u => emailMatches u.email query)

/-- Embeds the `searchUsers` fetch wrapper: a query shorter than 3 characters
returns `[]` without contacting the endpoint; otherwise the endpoint result. -/
def searchUsers (db : DB) (email : String) : List User :=
  if email.length < 3 then [] else searchEndpoint db email

/-- The ids of the page's fetched `adminUsers` list: `fetchAdminUsers` maps the
`get_all_users` result set (every Directory row) into the UI shape keyed by
`id`, so these are the ids of every Directory row. -/
def fetchedAdminUserIds (db : DB) : List String :=
  (allUsersRows db).map UserRow.id

/-- Embeds `handleSearch`: short queries clear the results; otherwise the
`searchUsers` result is filtered by
`users.filter(u => !existingAdminIds.includes(u.id))` where
`existingAdminIds = adminUsers.map(au => au.id)`. -/
def handleSearch (db : DB) (query : String) : List User :=
  if query.length < 3 then []
  else (searchUsers db query).filter (fun u => !(fetchedAdminUserIds db).contains u.id)

/-- The role the page attributes to a user: `adminUsers.find(au => au.id === uid)?.role`,
where the fetched list's `role` field carries `admin_role`. -/
def clientRole (db : DB) (uid : String) : Option String :=
  ((allUsersRows db).find? (fun row => row.id == uid)).map UserRow.admin_role

/-- A plain `insert into admin_users` as issued by the modal promote path:
a primary-key conflict on `id` is a duplicate-key error, not an update. -/
def insertAdminRow (db : DB) (target role creator : String) : Except DbError DB :=
  if db.admin_users.any (fun r => r.id == target) then .error .duplicateKey
  else .ok { db with admin_users := db.admin_users ++ [{ id := target, role := role, created_by := creator }] }

/-- The observable outcome of the modal promote path. -/
inductive ClientPromoteOutcome where
  | blocked
  | failed (e : DbError)
  | promoted
deriving Repr, DecidableEq

/-- Embeds `handlePromote` (the modal path): bail out unless the current
user's fetched role is `super_admin`, then attempt a direct insert into the
Role Registry; an insert error is caught and leaves the state unchanged.
(The best-effort `admin_audit_log` write is a separate table no claim
mentions and is not modelled.) -/
def handlePromote (db : DB) (current target role : String) : ClientPromoteOutcome × DB :=
  if !(clientRole db current == some "super_admin") then (.blocked, db)
  else
    match insertAdminRow db target role current with
    | .error e => (.failed e, db)
    | .ok db2 => (.promoted, db2)

/-! Example database states used in witnesses and counterexamples. -/

/-- A plain Directory member with no Role Registry row. -/
def exUserA : User := { id := "u1", email := "abcuser@x.com", created_at := 1 }

/-- A Directory member holding a `super_admin` Role Registry row in `dbSA`. -/
def exUserB : User := { id := "u2", email := "xyz@x.com", created_at := 2 }

/-- A second plain Directory member with no Role Registry row. -/
def exUserC : User := { id := "u3", email := "c@x.com", created_at := 3 }

/-- A state with one super_admin (`u2`) and two plain users (`u1`, `u3`). -/
def dbSA : DB :=
  { users := [exUserA, exUserB, exUserC]
    admin_users := [{ id := "u2", role := "super_admin", created_by := "u2" }] }

/-! Helper lemmas about the Role Registry list operations. -/

theorem key_all_false_of_find_none {l : List AdminRow} {u : String}
    (h : l.find? (fun r => r.id == u) = none) : ∀ r ∈ l, (r.id == u) = false := by
  intro r hr
  have := List.find?_eq_none.mp h r hr
  simpa using this

theorem any_key_false {l : List AdminRow} {u : String} {q : AdminRow → Bool}
    (h : ∀ r ∈ l, (r.id == u) = false) :
    l.any (fun r => r.id == u && q r) = false := by
  rw [List.any_eq_false]
  intro r hr
  simp [h r hr]

theorem find_map_update (l : List AdminRow) (t ro c : String)
    (h : l.any (fun r => r.id == t) = true) :
    (l.map (fun r => if r.id == t then { r with role := ro, created_by := c } else r)).find?
      (fun r => r.id == t) = some { id := t, role := ro, created_by := c } := by
  induction l with
  | nil => simp at h
  | cons r l ih =>
    by_cases hr : r.id = t
    · have hb : (r.id == t) = true := by simpa using hr
      simp [List.find?_cons, hb, hr]
    · have hb : (r.id == t) = false := by simpa using hr
      have h2 : l.any (fun r => r.id == t) = true := by
        simpa [List.any_cons, hb] using h
      have hg : (if (r.id == t) = true then { r with role := ro, created_by := c } else r) = r := by
        simp [hb]
      rw [List.map_cons, List.find?_cons, hg, hb]
      exact ih h2

theorem find_append_single (l : List AdminRow) (t ro c : String)
    (h : l.any (fun r => r.id == t) = false) :
    (l ++ [({ id := t, role := ro, created_by := c } : AdminRow)]).find? (fun r => r.id == t) =
      some { id := t, role := ro, created_by := c } := by
  rw [List.find?_append]
  have hnone : l.find? (fun r => r.id == t) = none := by
    rw [List.find?_eq_none]
    intro r hr
    have := List.any_eq_false.mp h r hr
    simpa using this
  simp [hnone, List.find?_cons]

theorem upsertList_find (l : List AdminRow) (t ro c : String) :
    (upsertList l t ro c).find? (fun r => r.id == t) =
      some { id := t, role := ro, created_by := c } := by
  unfold upsertList
  split
  · exact find_map_update l t ro c (by assumption)
  · exact find_append_single l t ro c (by simp_all)

theorem upsertList_of_absent (l : List AdminRow) (t ro c : String)
    (h : l.any (fun r => r.id == t) = false) :
    upsertList l t ro c = l ++ [{ id := t, role := ro, created_by := c }] := by
  unfold upsertList
  simp [h]

theorem upsertList_mem (l : List AdminRow) (t ro c : String) (r : AdminRow)
    (hr : r ∈ upsertList l t ro c) : r ∈ l ∨ r.role = ro := by
  unfold upsertList at hr
  split at hr
  · rcases List.mem_map.mp hr with ⟨s, hs, he⟩
    by_cases hk : s.id = t
    · right
      simp [hk] at he
      rw [← he]
    · left
      have hb : (s.id == t) = false := by simpa using hk
      simpa [hb, ← he] using hs
  · rcases List.mem_append.mp hr with h1 | h1
    · exact Or.inl h1
    · right
      simp at h1
      rw [h1]

/-- C1 counterexample input computed once: the claim says the failure is the
untouchable error for every caller, but a caller without a super_admin row
trips the authorization check first. -/
theorem c1_counterexample :
    isSuperAdmin dbSA "u2" = true ∧
    promote_user_to_admin "u1" "u2" "admin" dbSA = .error .notSuperAdminPromote ∧
    demote_admin_to_user "u1" "u2" dbSA = .error .notSuperAdminDemote ∧
    DbError.notSuperAdminPromote ≠ DbError.untouchable ∧
    DbError.notSuperAdminDemote ≠ DbError.untouchable := by
  refine ⟨rfl, rfl, rfl, by decide, by decide⟩

/-- C1 (amended): on a target holding a super_admin RoleAssignment, promote
and demote always fail and leave the target's RoleAssignment (indeed the
whole state) unchanged; the error is the untouchable error when the caller
is a super_admin, and the Unauthorized error otherwise. -/
theorem c1_super_admin_target_protected
    (db : DB) (caller target role : String)
    (htarget : isSuperAdmin db target = true)
    (hexists : userExists db target = true) :
    (∃ e, promote_user_to_admin caller target role db = .error e) ∧
    (∃ e, demote_admin_to_user caller target db = .error e) ∧
    applyPromote caller target role db = db ∧
    applyDemote caller target db = db ∧
    (isSuperAdmin db caller = true →
      promote_user_to_admin caller target role db = .error .untouchable ∧
      demote_admin_to_user caller target db = .error .untouchable) ∧
    (isSuperAdmin db caller = false →
      promote_user_to_admin caller target role db = .error .notSuperAdminPromote ∧
      demote_admin_to_user caller target db = .error .notSuperAdminDemote) := by
  cases hc : isSuperAdmin db caller with
  | false =>
    have hp : promote_user_to_admin caller target role db = .error .notSuperAdminPromote := by
      simp [promote_user_to_admin, hc]
    have hd : demote_admin_to_user caller target db = .error .notSuperAdminDemote := by
      simp [demote_admin_to_user, hc]
    simp [hp, hd, applyPromote, applyDemote, hc]
  | true =>
    have hp : promote_user_to_admin caller target role db = .error .untouchable := by
      simp [promote_user_to_admin, hc, hexists, htarget]
    have hd : demote_admin_to_user caller target db = .error .untouchable := by
      simp [demote_admin_to_user, hc, htarget]
    simp [hp, hd, applyPromote, applyDemote, hc]

/-- C1 witness: the amended theorem applied at a concrete state. -/
theorem c1_super_admin_target_protected_witness :
    (∃ e, promote_user_to_admin "u2" "u2" "admin" dbSA = .error e) ∧
    applyDemote "u2" "u2" dbSA = dbSA ∧
    promote_user_to_admin "u2" "u2" "admin" dbSA = .error .untouchable := by
  have h := c1_super_admin_target_protected dbSA "u2" "u2" "admin" (by decide) (by decide)
  exact ⟨h.1, h.2.2.2.1, (h.2.2.2.2.1 (by decide)).1⟩

/-- C2: every caller without a super_admin RoleAssignment gets the
Unauthorized error from both promote and demote, for every target and role,
and the state (in particular the Role Registry) is unchanged. -/
theorem c2_non_super_admin_caller_unauthorized
    (db : DB) (caller target role : String)
    (hc : isSuperAdmin db caller = false) :
    promote_user_to_admin caller target role db = .error .notSuperAdminPromote ∧
    demote_admin_to_user caller target db = .error .notSuperAdminDemote ∧
    classOf .notSuperAdminPromote = .unauthorized ∧
    classOf .notSuperAdminDemote = .unauthorized ∧
    applyPromote caller target role db = db ∧
    applyDemote caller target db = db := by
  have hp : promote_user_to_admin caller target role db = .error .notSuperAdminPromote := by
    simp [promote_user_to_admin, hc]
  have hd : demote_admin_to_user caller target db = .error .notSuperAdminDemote := by
    simp [demote_admin_to_user, hc]
  exact ⟨hp, hd, rfl, rfl, by simp [applyPromote, hp], by simp [applyDemote, hd]⟩

/-- C2 witness: a caller holding only an `admin` row is still unauthorized. -/
theorem c2_non_super_admin_caller_unauthorized_witness :
    promote_user_to_admin "u1" "u3" "admin" dbSA = .error .notSuperAdminPromote ∧
    demote_admin_to_user "u1" "u3" dbSA = .error .notSuperAdminDemote ∧
    applyDemote "u1" "u3" dbSA = dbSA := by
  have h := c2_non_super_admin_caller_unauthorized dbSA "u1" "u3" "admin" (by decide)
  exact ⟨h.1, h.2.1, h.2.2.2.2.2⟩

/-- The claimed Role Registry invariant: every row carries an elevated role. -/
def RegistryElevated (db : DB) : Prop :=
  ∀ r ∈ db.admin_users, r.role = "admin" ∨ r.role = "super_admin"

instance (db : DB) : Decidable (RegistryElevated db) := by
  unfold RegistryElevated
  exact List.decidableBAll _ db.admin_users

/-- C3 counterexample: a successful promote with `desired_role = 'user'`
upserts a Role Registry row whose role is `'user'`, violating the claimed
invariant starting from a state that satisfies it. -/
theorem c3_counterexample :
    RegistryElevated dbSA ∧
    promote_user_to_admin "u2" "u1" "user" dbSA =
      .ok { dbSA with
              admin_users := dbSA.admin_users ++ [{ id := "u1", role := "user", created_by := "u2" }] } ∧
    ({ id := "u1", role := "user", created_by := "u2" } : AdminRow) ∈
      (applyPromote "u2" "u1" "user" dbSA).admin_users ∧
    ¬ RegistryElevated (applyPromote "u2" "u1" "user" dbSA) := by
  refine ⟨by decide, rfl, by decide, by decide⟩

/-- C3 (amended): demote preserves the all-rows-elevated invariant and leaves
the target without a row, and promote preserves it whenever the desired role
is not `'user'`; promote with `desired_role = 'user'`, however, succeeds and
leaves a row with role `'user'`, so the invariant is not preserved by every
operation. -/
theorem c3_registry_elevated_partial_preservation
    (db db2 : DB) (caller target role : String) :
    (demote_admin_to_user caller target db = .ok db2 →
       (RegistryElevated db → RegistryElevated db2) ∧ lookupRole db2 target = none) ∧
    (promote_user_to_admin caller target role db = .ok db2 → role ≠ "user" →
       RegistryElevated db → RegistryElevated db2) := by
  constructor
  · intro h
    have hdb2 : db2 = { db with admin_users := db.admin_users.filter (fun r => r.id != target) } := by
      unfold demote_admin_to_user at h
      split at h
      · cases h
      · split at h
        · cases h
        · exact (Except.ok.injEq _ _).mp h.symm
    subst hdb2
    constructor
    · intro hreg r hr
      exact hreg r (List.mem_filter.mp hr).1
    · rw [lookupRole, List.find?_eq_none]
      intro r hr
      have := (List.mem_filter.mp hr).2
      simp at this
      simp [this]
  · intro h hrole hreg
    have hdb2 : db2 = { db with admin_users := upsertList db.admin_users target role caller } := by
      unfold promote_user_to_admin at h
      split at h
      · cases h
      · split at h
        · cases h
        · split at h
          · cases h
          · split at h
            · cases h
            · exact (Except.ok.injEq _ _).mp h.symm
    have hvalid : (role == "user" || role == "admin" || role == "super_admin") = true := by
      unfold promote_user_to_admin at h
      split at h
      · cases h
      · split at h
        · cases h
        · split at h
          · cases h
          · split at h
            · cases h
            · rename_i hcond
              simp at hcond
              simp only [Bool.or_eq_true, beq_iff_eq]
              tauto
    have helev : role = "admin" ∨ role = "super_admin" := by
      by_cases h1 : role = "admin"
      · exact Or.inl h1
      · by_cases h2 : role = "super_admin"
        · exact Or.inr h2
        · exfalso
          by_cases h0 : role = "user"
          · exact hrole h0
          · simp [h0, h1, h2] at hvalid
    subst hdb2
    intro r hr
    rcases upsertList_mem db.admin_users target role caller r hr with hmem | hrol
    · exact hreg r hmem
    · rw [hrol]
      exact helev

/-- C3 witness: the amended theorem applied at a concrete state. -/
theorem c3_registry_elevated_partial_preservation_witness :
    (RegistryElevated dbSA →
      RegistryElevated { dbSA with admin_users := dbSA.admin_users.filter (fun r => r.id != "u1") }) ∧
    RegistryElevated
      { dbSA with admin_users := upsertList dbSA.admin_users "u1" "admin" "u2" } := by
  have h1 := (c3_registry_elevated_partial_preservation dbSA
    { dbSA with admin_users := dbSA.admin_users.filter (fun r => r.id != "u1") }
    "u2" "u1" "admin").1 (by rfl)
  have h2 := (c3_registry_elevated_partial_preservation dbSA
    { dbSA with admin_users := upsertList dbSA.admin_users "u1" "admin" "u2" }
    "u2" "u1" "admin").2 (by rfl) (by decide) (by decide)
  exact ⟨h1.1, h2⟩

/-- C5: once the caller is a super_admin and the target exists and is not
itself a super_admin, promote fails with the invalid-role error exactly when
the desired role is outside `{user, admin, super_admin}` (the superset
contract); in particular `desired_role = 'super_admin'` passes validation
and succeeds, writing the target's row. -/
theorem c5_promote_role_validation
    (db : DB) (caller target : String)
    (hc : isSuperAdmin db caller = true)
    (he : userExists db target = true)
    (ht : isSuperAdmin db target = false) :
    (∀ role, promote_user_to_admin caller target role db = .error .invalidRole ↔
       ¬(role = "user" ∨ role = "admin" ∨ role = "super_admin")) ∧
    classOf .invalidRole = .invalidArgument ∧
    promote_user_to_admin caller target "super_admin" db =
      .ok { db with admin_users := upsertList db.admin_users target "super_admin" caller } ∧
    lookupRole (applyPromote caller target "super_admin" db) target =
      some { id := target, role := "super_admin", created_by := caller } := by
  have hok : promote_user_to_admin caller target "super_admin" db =
      .ok { db with admin_users := upsertList db.admin_users target "super_admin" caller } := by
    simp [promote_user_to_admin, hc, he, ht]
  refine ⟨?_, rfl, hok, ?_⟩
  · intro role
    constructor
    · intro h habs
      rcases habs with h1 | h1 | h1 <;>
        · subst h1
          simp [promote_user_to_admin, hc, he, ht] at h
    · intro h
      have h1 : role ≠ "user" := fun x => h (Or.inl x)
      have h2 : role ≠ "admin" := fun x => h (Or.inr (Or.inl x))
      have h3 : role ≠ "super_admin" := fun x => h (Or.inr (Or.inr x))
      simp [promote_user_to_admin, hc, he, ht, h1, h2, h3]
  · rw [applyPromote, hok]
    exact upsertList_find db.admin_users target "super_admin" caller

/-- C5 witness: the validation contract at a concrete state. -/
theorem c5_promote_role_validation_witness :
    (promote_user_to_admin "u2" "u1" "banana" dbSA = .error .invalidRole ↔
       ¬("banana" = "user" ∨ "banana" = "admin" ∨ "banana" = "super_admin")) ∧
    promote_user_to_admin "u2" "u1" "super_admin" dbSA =
      .ok { dbSA with admin_users := upsertList dbSA.admin_users "u1" "super_admin" "u2" } := by
  have h := c5_promote_role_validation dbSA "u2" "u1" (by decide) (by decide) (by decide)
  exact ⟨h.1 "banana", h.2.2.1⟩

theorem any_filter_ne (l : List AdminRow) (t c : String) (hne : c ≠ t) (q : AdminRow → Bool) :
    (l.filter (fun r => r.id != t)).any (fun r => r.id == c && q r) =
      l.any (fun r => r.id == c && q r) := by
  induction l with
  | nil => rfl
  | cons r l ih =>
    by_cases hr : r.id = t
    · have h1 : (r.id != t) = false := by simp [hr]
      have h2 : (r.id == c) = false := by
        simp only [beq_eq_false_iff_ne, ne_eq, hr]
        exact fun h => hne h.symm
      simp [List.filter_cons, h1, List.any_cons, h2, ih]
    · have h1 : (r.id != t) = true := by simp [hr]
      simp [List.filter_cons, h1, List.any_cons, ih]

theorem any_key_after_delete (l : List AdminRow) (t : String) (q : AdminRow → Bool) :
    (l.filter (fun r => r.id != t)).any (fun r => r.id == t && q r) = false := by
  rw [List.any_eq_false]
  intro r hr
  have h2 := (List.mem_filter.mp hr).2
  simp only [bne_iff_ne, ne_eq] at h2
  simp [h2]

theorem filter_ne_idem (l : List AdminRow) (t : String) :
    (l.filter (fun r => r.id != t)).filter (fun r => r.id != t) =
      l.filter (fun r => r.id != t) := by
  rw [List.filter_filter]
  exact List.filter_congr fun r _ => Bool.and_self _

/-- C7: for a super_admin caller and a non-protected target, demote succeeds,
removes the target's RoleAssignment, is a successful no-op when the target
has no RoleAssignment (no existence check), and a second call succeeds and
leaves the same end state as one call. -/
theorem c7_demote_idempotent
    (db : DB) (caller target : String)
    (hc : isSuperAdmin db caller = true)
    (ht : isSuperAdmin db target = false) :
    ∃ db2, demote_admin_to_user caller target db = .ok db2 ∧
      lookupRole db2 target = none ∧
      demote_admin_to_user caller target db2 = .ok db2 ∧
      applyDemote caller target (applyDemote caller target db) = applyDemote caller target db ∧
      (lookupRole db target = none → db2 = db) := by
  have hne : caller ≠ target := by
    intro h
    rw [h, ht] at hc
    cases hc
  refine ⟨{ db with admin_users := db.admin_users.filter (fun r => r.id != target) }, ?_, ?_, ?_, ?_, ?_⟩
  · simp [demote_admin_to_user, hc, ht]
  · rw [lookupRole, List.find?_eq_none]
    intro r hr
    have h2 := (List.mem_filter.mp hr).2
    simp only [bne_iff_ne, ne_eq] at h2
    simp [h2]
  · have hc2 : isSuperAdmin { db with admin_users := db.admin_users.filter (fun r => r.id != target) } caller = true := by
      rw [isSuperAdmin]
      rw [show ({ db with admin_users := db.admin_users.filter (fun r => r.id != target) } : DB).admin_users
            = db.admin_users.filter (fun r => r.id != target) from rfl]
      rw [any_filter_ne db.admin_users target caller hne]
      exact hc
    have ht2 : isSuperAdmin { db with admin_users := db.admin_users.filter (fun r => r.id != target) } target = false := by
      rw [isSuperAdmin]
      exact any_key_after_delete db.admin_users target _
    simp [demote_admin_to_user, hc2, ht2, filter_ne_idem]
  · have hd : demote_admin_to_user caller target db =
        .ok { db with admin_users := db.admin_users.filter (fun r => r.id != target) } := by
      simp [demote_admin_to_user, hc, ht]
    have hc2 : isSuperAdmin { db with admin_users := db.admin_users.filter (fun r => r.id != target) } caller = true := by
      rw [isSuperAdmin]
      rw [show ({ db with admin_users := db.admin_users.filter (fun r => r.id != target) } : DB).admin_users
            = db.admin_users.filter (fun r => r.id != target) from rfl]
      rw [any_filter_ne db.admin_users target caller hne]
      exact hc
    have ht2 : isSuperAdmin { db with admin_users := db.admin_users.filter (fun r => r.id != target) } target = false := by
      rw [isSuperAdmin]
      exact any_key_after_delete db.admin_users target _
    have happ : applyDemote caller target db =
        { db with admin_users := db.admin_users.filter (fun r => r.id != target) } := by
      rw [applyDemote, hd]
    rw [happ, applyDemote]
    simp [demote_admin_to_user, hc2, ht2, filter_ne_idem]
  · intro hnone
    have hall : ∀ r ∈ db.admin_users, (r.id != target) = true := by
      intro r hr
      have := key_all_false_of_find_none hnone r hr
      simpa [bne_iff_ne] using this
    have : db.admin_users.filter (fun r => r.id != target) = db.admin_users :=
      List.filter_eq_self.mpr hall
    rw [this]

/-- C7 witness: demoting a target with no RoleAssignment at a concrete state. -/
theorem c7_demote_idempotent_witness :
    ∃ db2, demote_admin_to_user "u2" "u1" dbSA = .ok db2 ∧
      lookupRole db2 "u1" = none ∧
      demote_admin_to_user "u2" "u1" db2 = .ok db2 := by
  obtain ⟨db2, h1, h2, h3, _⟩ := c7_demote_idempotent dbSA "u2" "u1" (by decide) (by decide)
  exact ⟨db2, h1, h2, h3⟩

/-- C4: `get_all_users` fails with the Unauthorized error for every caller
without an admin or super_admin RoleAssignment; for an authorized caller it
returns exactly one row per Directory user (a permutation of the annotated
Directory), each row carrying `effective_role` equal to the RoleAssignment's
role or `'user'` when none exists and `is_admin` true exactly when a
RoleAssignment row exists, ordered by `created_at` descending. -/
theorem c4_get_all_users_spec (db : DB) (caller : String) :
    (isAdminOrSuperAdmin db caller = false →
       get_all_users caller db = .error .notAdminList ∧
       classOf .notAdminList = .unauthorized) ∧
    (isAdminOrSuperAdmin db caller = true →
       ∃ rows, get_all_users caller db = .ok rows ∧
         rows.Perm (db.users.map (toUserRow db)) ∧
         List.Sorted (fun a b : UserRow => b.created_at ≤ a.created_at) rows ∧
         (∀ row ∈ rows, ∃ u ∈ db.users, row = toUserRow db u) ∧
         (∀ u ∈ db.users, toUserRow db u ∈ rows) ∧
         (∀ u ∈ db.users,
            (∀ a, lookupRole db u.id = some a → (toUserRow db u).admin_role = a.role) ∧
            (lookupRole db u.id = none → (toUserRow db u).admin_role = "user") ∧
            ((toUserRow db u).is_admin = true ↔ ∃ a, lookupRole db u.id = some a))) := by
  constructor
  · intro h
    exact ⟨by simp [get_all_users, h], rfl⟩
  · intro h
    refine ⟨allUsersRows db, by simp [get_all_users, h], ?_, ?_, ?_, ?_, ?_⟩
    · exact (List.perm_insertionSort byCreatedDesc db.users).map (toUserRow db)
    · exact List.pairwise_map.mpr (List.sorted_insertionSort byCreatedDesc db.users)
    · intro row hrow
      rcases List.mem_map.mp hrow with ⟨u, hu, he⟩
      exact ⟨u, (List.perm_insertionSort byCreatedDesc db.users).mem_iff.mp hu, he.symm⟩
    · intro u hu
      exact List.mem_map.mpr
        ⟨u, (List.perm_insertionSort byCreatedDesc db.users).mem_iff.mpr hu, rfl⟩
    · intro u _
      refine ⟨?_, ?_, ?_⟩
      · intro a ha
        simp [toUserRow, ha]
      · intro ha
        simp [toUserRow, ha]
      · simp [toUserRow, Option.isSome_iff_exists]

/-- C4 witness: both branches at concrete states; `u1` holds no registry row,
`u2` holds a super_admin row. -/
theorem c4_get_all_users_spec_witness :
    get_all_users "u1" dbSA = .error .notAdminList ∧
    (∃ rows, get_all_users "u2" dbSA = .ok rows ∧
       rows.Perm (dbSA.users.map (toUserRow dbSA))) := by
  refine ⟨((c4_get_all_users_spec dbSA "u1").1 (by decide)).1, ?_⟩
  obtain ⟨rows, h1, h2, _⟩ := (c4_get_all_users_spec dbSA "u2").2 (by decide)
  exact ⟨rows, h1, h2⟩

theorem map_update_no_key (l : List AdminRow) (u ro c : String)
    (h : ∀ r ∈ l, (r.id == u) = false) :
    l.map (fun r => if r.id == u then { r with role := ro, created_by := c } else r) = l := by
  induction l with
  | nil => rfl
  | cons r l ih =>
    have hr := h r (List.mem_cons_self r l)
    rw [List.map_cons]
    rw [ih fun s hs => h s (List.mem_cons_of_mem r hs)]
    simp [hr]

theorem upsertList_append_key (l : List AdminRow) (u ro0 c0 ro c : String)
    (h : ∀ r ∈ l, (r.id == u) = false) :
    upsertList (l ++ [{ id := u, role := ro0, created_by := c0 }]) u ro c =
      l ++ [{ id := u, role := ro, created_by := c }] := by
  unfold upsertList
  have hany : (l ++ [({ id := u, role := ro0, created_by := c0 } : AdminRow)]).any
      (fun r => r.id == u) = true := by
    rw [List.any_append]
    simp
  rw [if_pos hany, List.map_append, map_update_no_key l u ro c h]
  simp

/-- The state after the first promote of the C8 round trip at `dbSA`. -/
def dbC8a : DB := applyPromote "u2" "u1" "admin" dbSA

/-- The state after the second promote of the C8 round trip at `dbSA`. -/
def dbC8b : DB := applyPromote "u2" "u1" "super_admin" dbC8a

/-- C8 counterexample: after the round trip, a promote of the target issued
by a caller without a super_admin RoleAssignment (`u3`) fails with the
Unauthorized error, not the untouchable error, so not every subsequent
promote of U fails with the untouchable error. -/
theorem c8_counterexample :
    promote_user_to_admin "u2" "u1" "admin" dbSA = .ok dbC8a ∧
    promote_user_to_admin "u2" "u1" "super_admin" dbC8a = .ok dbC8b ∧
    lookupRole dbC8b "u1" = some { id := "u1", role := "super_admin", created_by := "u2" } ∧
    promote_user_to_admin "u3" "u1" "admin" dbC8b = .error .notSuperAdminPromote ∧
    DbError.notSuperAdminPromote ≠ DbError.untouchable := by
  refine ⟨rfl, rfl, rfl, rfl, by decide⟩

/-- C8 (amended): from a fresh, existing target, promote to admin by one
super_admin then promote to super_admin by another succeeds, leaving the
target's RoleAssignment with role super_admin and the second caller as
creator; every subsequent promote of the target fails — with the
untouchable error when its caller is then a super_admin, and with the
Unauthorized error otherwise. -/
theorem c8_promote_round_trip
    (db : DB) (c1 c2 u : String)
    (h1 : isSuperAdmin db c1 = true) (h2 : isSuperAdmin db c2 = true)
    (hu : userExists db u = true) (hfresh : lookupRole db u = none) :
    ∃ dbA dbB,
      promote_user_to_admin c1 u "admin" db = .ok dbA ∧
      promote_user_to_admin c2 u "super_admin" dbA = .ok dbB ∧
      lookupRole dbB u = some { id := u, role := "super_admin", created_by := c2 } ∧
      ∀ c3 role3,
        (∃ e, promote_user_to_admin c3 u role3 dbB = .error e) ∧
        (isSuperAdmin dbB c3 = true →
          promote_user_to_admin c3 u role3 dbB = .error .untouchable) ∧
        (isSuperAdmin dbB c3 = false →
          promote_user_to_admin c3 u role3 dbB = .error .notSuperAdminPromote) := by
  have hkeys : ∀ r ∈ db.admin_users, (r.id == u) = false :=
    key_all_false_of_find_none hfresh
  have hany : db.admin_users.any (fun r => r.id == u) = false := by
    rw [List.any_eq_false]
    intro r hr
    simp [hkeys r hr]
  have huSA : isSuperAdmin db u = false := any_key_false hkeys
  refine ⟨{ db with admin_users := db.admin_users ++ [{ id := u, role := "admin", created_by := c1 }] },
    { db with admin_users := db.admin_users ++ [{ id := u, role := "super_admin", created_by := c2 }] },
    ?_, ?_, ?_, ?_⟩
  · simp [promote_user_to_admin, h1, hu, huSA, upsertList_of_absent db.admin_users u "admin" c1 hany]
  · have h2A : isSuperAdmin
        { db with admin_users := db.admin_users ++ [{ id := u, role := "admin", created_by := c1 }] } c2 = true := by
      simp only [isSuperAdmin] at h2 ⊢
      rw [List.any_append, h2]
      rfl
    have huA : isSuperAdmin
        { db with admin_users := db.admin_users ++ [{ id := u, role := "admin", created_by := c1 }] } u = false := by
      simp only [isSuperAdmin]
      rw [List.any_append, any_key_false hkeys]
      simp
    have huEx : userExists
        { db with admin_users := db.admin_users ++ [{ id := u, role := "admin", created_by := c1 }] } u = true := hu
    simp [promote_user_to_admin, h2A, huEx, huA,
      upsertList_append_key db.admin_users u "admin" c1 "super_admin" c2 hkeys]
  · exact find_append_single db.admin_users u "super_admin" c2 hany
  · intro c3 role3
    have huB : isSuperAdmin
        { db with admin_users := db.admin_users ++ [{ id := u, role := "super_admin", created_by := c2 }] } u = true := by
      simp only [isSuperAdmin]
      rw [List.any_append, any_key_false hkeys]
      simp
    cases hc3 : isSuperAdmin
        { db with admin_users := db.admin_users ++ [{ id := u, role := "super_admin", created_by := c2 }] } c3 with
    | false =>
      have he : promote_user_to_admin c3 u role3
          { db with admin_users := db.admin_users ++ [{ id := u, role := "super_admin", created_by := c2 }] } =
            .error .notSuperAdminPromote := by
        simp [promote_user_to_admin, hc3]
      exact ⟨⟨_, he⟩, by simp [hc3], fun _ => he⟩
    | true =>
      have he : promote_user_to_admin c3 u role3
          { db with admin_users := db.admin_users ++ [{ id := u, role := "super_admin", created_by := c2 }] } =
            .error .untouchable := by
        have huEx : userExists
            { db with admin_users := db.admin_users ++ [{ id := u, role := "super_admin", created_by := c2 }] } u = true := hu
        simp [promote_user_to_admin, hc3, huEx, huB]
      exact ⟨⟨_, he⟩, fun _ => he, by simp [hc3]⟩

/-- C8 witness: the round trip at a concrete state. -/
theorem c8_promote_round_trip_witness :
    ∃ dbA dbB,
      promote_user_to_admin "u2" "u1" "admin" dbSA = .ok dbA ∧
      promote_user_to_admin "u2" "u1" "super_admin" dbA = .ok dbB ∧
      lookupRole dbB "u1" = some { id := "u1", role := "super_admin", created_by := "u2" } := by
  obtain ⟨dbA, dbB, hA, hB, hL, _⟩ :=
    c8_promote_round_trip dbSA "u2" "u2" "u1" (by decide) (by decide) (by decide) (by decide)
  exact ⟨dbA, dbB, hA, hB, hL⟩

/-- The C6 scenario state: a Directory with `abcuser@x.com` (no
RoleAssignment) and `xyz@x.com`, and an empty Role Registry. -/
def dbC6 : DB := { users := [exUserA, exUserB], admin_users := [] }

/-- C6 evaluated at the claim's own scenario: the short-circuit for queries
shorter than 3 characters holds, and the modelled search endpoint does match
`abcuser@x.com`; but `handleSearch` filters out every id present in the
fetched `get_all_users` list — which contains every Directory user — so the
pipeline returns the empty list instead of `abcuser@x.com`. -/
theorem c6_search_filters_out_all_users :
    searchUsers dbC6 "ab" = [] ∧
    lookupRole dbC6 "u1" = none ∧
    searchEndpoint dbC6 "abc" = [exUserA] ∧
    fetchedAdminUserIds dbC6 = ["u2", "u1"] ∧
    handleSearch dbC6 "abc" = [] := by
  refine ⟨rfl, rfl, rfl, rfl, rfl⟩

theorem promote_ok_role_valid {caller target role : String} {db db2 : DB}
    (h : promote_user_to_admin caller target role db = .ok db2) :
    (role == "user" || role == "admin" || role == "super_admin") = true := by
  unfold promote_user_to_admin at h
  split at h
  · cases h
  · split at h
    · cases h
    · split at h
      · cases h
      · split at h
        · cases h
        · rename_i hcond
          simp at hcond
          simp only [Bool.or_eq_true, beq_iff_eq]
          tauto

/-- C9: both route handlers reject a missing (or blank) `userId` — and, for
promote, a missing `role` or a role outside `{user, admin, super_admin}` —
with status 400 and a fixed message before any storage call (the state is
returned unchanged and the response does not depend on it); any error
surfaced from the stored procedure maps uniformly to status 400 carrying the
error's message; success maps to status 200 with `success = true` and a
message. -/
theorem c9_routes_validation_and_mapping
    (caller : String) (body : PromoteBody) (uid : Option String) (db : DB) :
    ((isBlank body.userId || isBlank body.role) = true →
       promoteRoute caller body db =
         ({ status := 400, success := false, error := some "Missing userId or role",
            message := none }, db)) ∧
    ((isBlank body.userId || isBlank body.role) = false →
       (body.role.getD "" == "user" || body.role.getD "" == "admin" ||
         body.role.getD "" == "super_admin") = false →
       promoteRoute caller body db =
         ({ status := 400, success := false,
            error := some "Invalid role. Must be user, admin, or super_admin",
            message := none }, db)) ∧
    (∀ e, (isBlank body.userId || isBlank body.role) = false →
       (body.role.getD "" == "user" || body.role.getD "" == "admin" ||
         body.role.getD "" == "super_admin") = true →
       promote_user_to_admin caller (body.userId.getD "") (body.role.getD "") db = .error e →
       promoteRoute caller body db =
         ({ status := 400, success := false, error := some (errMessage e), message := none }, db)) ∧
    (∀ db2, (isBlank body.userId || isBlank body.role) = false →
       promote_user_to_admin caller (body.userId.getD "") (body.role.getD "") db = .ok db2 →
       promoteRoute caller body db =
         ({ status := 200, success := true, error := none,
            message := some ("User successfully promoted to " ++ body.role.getD "") }, db2)) ∧
    (isBlank uid = true →
       demoteRoute caller uid db =
         ({ status := 400, success := false, error := some "Missing userId", message := none }, db)) ∧
    (∀ e, isBlank uid = false →
       demote_admin_to_user caller (uid.getD "") db = .error e →
       demoteRoute caller uid db =
         ({ status := 400, success := false, error := some (errMessage e), message := none }, db)) ∧
    (∀ db2, isBlank uid = false →
       demote_admin_to_user caller (uid.getD "") db = .ok db2 →
       demoteRoute caller uid db =
         ({ status := 200, success := true, error := none,
            message := some "User successfully demoted to regular user" }, db2)) := by
  refine ⟨?_, ?_, ?_, ?_, ?_, ?_, ?_⟩
  · intro h
    simp [promoteRoute, h]
  · intro h hrole
    simp [promoteRoute, h, hrole]
  · intro e h hrole herr
    simp [promoteRoute, h, hrole, herr]
  · intro db2 h hok
    have hrole := promote_ok_role_valid hok
    simp [promoteRoute, h, hrole, hok]
  · intro h
    simp [demoteRoute, h]
  · intro e h herr
    simp [demoteRoute, h, herr]
  · intro db2 h hok
    simp [demoteRoute, h, hok]

/-- C9 witness: the route contracts at concrete requests. -/
theorem c9_routes_validation_and_mapping_witness :
    promoteRoute "u2" { userId := none, role := some "admin" } dbSA =
      ({ status := 400, success := false, error := some "Missing userId or role",
         message := none }, dbSA) ∧
    promoteRoute "u2" { userId := some "u1", role := some "owner" } dbSA =
      ({ status := 400, success := false,
         error := some "Invalid role. Must be user, admin, or super_admin",
         message := none }, dbSA) ∧
    demoteRoute "u2" none dbSA =
      ({ status := 400, success := false, error := some "Missing userId", message := none }, dbSA) ∧
    demoteRoute "u1" (some "u3") dbSA =
      ({ status := 400, success := false,
         error := some "Only super_admins can demote users", message := none }, dbSA) := by
  refine ⟨?_, ?_, ?_, ?_⟩
  · exact (c9_routes_validation_and_mapping "u2" { userId := none, role := some "admin" }
      none dbSA).1 (by decide)
  · exact (c9_routes_validation_and_mapping "u2" { userId := some "u1", role := some "owner" }
      none dbSA).2.1 (by decide) (by decide)
  · exact (c9_routes_validation_and_mapping "u2" { userId := none, role := none }
      none dbSA).2.2.2.2.1 (by decide)
  · exact (c9_routes_validation_and_mapping "u1" { userId := none, role := none }
      (some "u3") dbSA).2.2.2.2.2.1 .notSuperAdminDemote (by decide) (by rfl)

/-- C10: on the modal promote path, which issues a plain insert rather than
the stored upsert, any target already holding a RoleAssignment row makes the
insert fail with the duplicate-key error and leaves the state unchanged
(when the path reaches the insert at all, i.e. the current user's fetched
role is super_admin); and on every input the path preserves each
pre-existing Role Registry row verbatim — it can create a row, never modify
one. -/
theorem c10_handlePromote_insert_only (db : DB) (current target role : String) :
    ((lookupRole db target).isSome = true →
       (handlePromote db current target role).2 = db ∧
       (clientRole db current = some "super_admin" →
          handlePromote db current target role = (.failed .duplicateKey, db))) ∧
    (∀ r ∈ db.admin_users, r ∈ (handlePromote db current target role).2.admin_users) := by
  constructor
  · intro hsome
    have hany : db.admin_users.any (fun r => r.id == target) = true := by
      rw [List.any_eq_true]
      obtain ⟨r, hr, hp⟩ := List.find?_isSome.mp hsome
      exact ⟨r, hr, hp⟩
    have hins : insertAdminRow db target role current = .error .duplicateKey := by
      simp [insertAdminRow, hany]
    constructor
    · unfold handlePromote
      split
      · rfl
      · rw [hins]
    · intro hrole
      unfold handlePromote
      rw [if_neg (by simp [hrole]), hins]
  · intro r hr
    unfold handlePromote
    split
    · exact hr
    · cases hins : insertAdminRow db target role current with
      | error e =>
        exact hr
      | ok db2 =>
        have hdb2 : db2 = { db with admin_users := db.admin_users ++
            [{ id := target, role := role, created_by := current }] } := by
          unfold insertAdminRow at hins
          split at hins
          · cases hins
          · exact (Except.ok.injEq _ _).mp hins.symm
        subst hdb2
        exact List.mem_append_left _ hr

/-- C10 witness: promoting `u2` (which already holds a row) through the modal
path at a concrete state fails with the duplicate-key error. -/
theorem c10_handlePromote_insert_only_witness :
    handlePromote dbSA "u2" "u2" "admin" = (.failed .duplicateKey, dbSA) ∧
    (∀ r ∈ dbSA.admin_users, r ∈ (handlePromote dbSA "u2" "u1" "admin").2.admin_users) := by
  refine ⟨?_, (c10_handlePromote_insert_only dbSA "u2" "u1" "admin").2⟩
  exact ((c10_handlePromote_insert_only dbSA "u2" "u2" "admin").1 (by rfl)).2 (by rfl)

end GTL
